import Mathlib

/-!
Shallow embedding of the LogUnify node SDK client (`src/index.ts`), a
client-side event-batching dispatcher: `log` appends events to a bounded
buffer, a debounced timer or an exact-size trigger starts a flush cycle, and
`sendEvents` drains the buffer in batches of at most `maxBulkSize` events,
retrying each batch up to `maxAttempts` times via `makeRequest`.

Modelling conventions:
- JS runtime values that may lack a field are `Option`; JS truthy-or
  (`x || y`) is modelled per type (`0`, `""` and `undefined` are falsy).
- `Date.now()` is a `Rat` parameter in milliseconds; the code stores
  `Date.now() / 1000` (seconds) in `lastScheduled`, which the embedding
  reproduces exactly, sentinel `-1` included.
- The asynchronous flush is modelled as a function from the pre-state to a
  post-state plus a trace: the transport oracle `tr : Nat → Bool` gives the
  outcome of the k-th HTTP call of the run, and `trace` records the batch of
  every transport call actually issued, in order. `ret = some false` models
  `return false`; `ret = none` models falling through (JS `undefined`).
- `log` does not inline the flush cycle; it reports which triggers fired
  (`timerArmed`, `immediateFlush`), matching the code where line 96 arms a
  `setTimeout` and line 103 calls `sendEvents()`.
-/

namespace LogUnify

/-- An event value as the dispatcher sees it: the three methods of the
declared `LogUnifyEvent` interface, plus `toObject`, which line 91 of the
source calls although it is not part of the interface; `none` models a
runtime value that lacks the method (so the call raises a `TypeError`). -/
structure LogUnifyEvent where
  getSchemaName : String
  getProjectName : String
  serialize : List Nat
  toObject : Option Unit
deriving DecidableEq

/-- `private maxBulkSize: number = 50` — never reassigned. -/
def maxBulkSize : Nat := 50

/-- `private maxAttempts: number = 3` — never reassigned. -/
def maxAttempts : Nat := 3

/-- `private maxUnsentEvents: number = 5000` — never reassigned. -/
def maxUnsentEvents : Nat := 5000

/-- The `Options` argument of `setup`/`configure`. Every field is `Option`
because at runtime a JS caller can omit any of them (they then read as
`undefined`), even `apiKey`, which the TS type declares as required. -/
structure Options where
  apiKey : Option String
  receiverURL : Option String
  batchInterval : Option Rat
  minBatchSize : Option Nat
  enableDebugLog : Option Bool
deriving DecidableEq

/-- JS `x || y` for an optional number: `undefined` and `0` are falsy. -/
def orTruthyRat (x : Option Rat) (y : Rat) : Rat :=
  match x with
  | some v => if v = 0 then y else v
  | none => y

/-- JS `x || y` for an optional integer count: `undefined` and `0` are falsy. -/
def orTruthyNat (x : Option Nat) (y : Nat) : Nat :=
  match x with
  | some v => if v = 0 then y else v
  | none => y

/-- JS `x || y` for an optional string: `undefined` and `""` are falsy. -/
def orTruthyStr (x : Option String) (y : String) : String :=
  match x with
  | some v => if v = "" then y else v
  | none => y

/-- The mutable instance fields of `LogUnifyLogger` (the winston logger, an
external collaborator, is omitted; the constant fields `maxBulkSize`,
`maxAttempts`, `maxUnsentEvents` are module constants above). -/
structure LoggerState where
  receiverURL : String
  batchInterval : Rat
  minBatchSize : Nat
  events : List LogUnifyEvent
  isSendingEvents : Bool
  lastScheduled : Rat
  apiKey : Option String
deriving DecidableEq

/-- Field initialisers of `LogUnifyLogger` before the constructor body runs. -/
def initialState : LoggerState where
  receiverURL := "http://localhost:8081/api/events/_bulk"
  batchInterval := 5000
  minBatchSize := 10
  events := []
  isSendingEvents := false
  lastScheduled := -1
  apiKey := none

/-- `configure(options)`, lines 77-83: `apiKey` is assigned unconditionally
(line 78); the other three fields use the truthy-or pattern. -/
def configure (s : LoggerState) (o : Options) : LoggerState :=
  { s with
    apiKey := o.apiKey
    batchInterval := orTruthyRat o.batchInterval s.batchInterval
    minBatchSize := orTruthyNat o.minBatchSize s.minBatchSize
    receiverURL := orTruthyStr o.receiverURL s.receiverURL }

/-- The private constructor, lines 60-75: set `apiKey`, then `configure`. -/
def newLogger (o : Options) : LoggerState :=
  configure { initialState with apiKey := o.apiKey } o

/-- `static setup(options)`, lines 44-51, acting on the static `instance`
slot (`Option LoggerState`): create the instance when absent, otherwise
reconfigure the existing one; return the instance either way. -/
def setupFn (inst : Option LoggerState) (o : Options) :
    LoggerState × Option LoggerState :=
  match inst with
  | none => (newLogger o, some (newLogger o))
  | some s => (configure s o, some (configure s o))

/-- `static get()`, lines 53-58: throw when the instance is absent. -/
def getFn (inst : Option LoggerState) : Except String LoggerState :=
  match inst with
  | none =>
    Except.error "Logger is not initialized, please call setupLogger() to initialize the logger."
  | some s => Except.ok s

/-- A call on the public static surface, used to talk about whole call
sequences against the singleton slot. -/
inductive ApiCall where
  | setupCall (o : Options)
  | getCall
deriving DecidableEq

/-- Effect of a call sequence on the static `instance` slot (`get` never
changes it; `setup` replaces it as `setupFn` does). -/
def runCalls (inst : Option LoggerState) : List ApiCall → Option LoggerState
  | [] => inst
  | ApiCall.setupCall o :: rest => runCalls (setupFn inst o).2 rest
  | ApiCall.getCall :: rest => runCalls inst rest

/-- Lines 86-90 of `log`: push the event, then if the length exceeds
`maxUnsent` remove exactly one element from the head (`splice(0, 1)`). -/
def bufferStep {α : Type} (maxUnsent : Nat) (events : List α) (e : α) : List α :=
  let events1 := events ++ [e]
  if events1.length > maxUnsent then events1.drop 1 else events1

/-- Observable outcome of one `log` call: the post-state, whether line 96
armed a `setTimeout(sendEvents, batchInterval)`, whether line 103 invoked
`sendEvents()` synchronously, and whether the call threw (the `TypeError`
from `event.toObject()` on line 91). -/
structure LogResult where
  state : LoggerState
  timerArmed : Bool
  immediateFlush : Bool
  errored : Bool
deriving DecidableEq

/-- `log(event)`, lines 85-105, at wall-clock time `now` (ms). The buffer
update of lines 86-90 happens first; line 91 evaluates `event.toObject()`
(throwing if the method is missing, before any scheduling); line 93 compares
`Date.now() / 1000 - lastScheduled` (seconds) with `batchInterval` and on
re-arming records `Date.now() / 1000`; line 100 tests
`events.length === minBatchSize` on the updated buffer. -/
def log (s : LoggerState) (e : LogUnifyEvent) (now : Rat) : LogResult :=
  let events1 := bufferStep maxUnsentEvents s.events e
  match e.toObject with
  | none => ⟨{ s with events := events1 }, false, false, true⟩
  | some _ =>
    let sched : Bool :=
      decide (s.lastScheduled = -1 ∨ now / 1000 - s.lastScheduled > s.batchInterval)
    let s2 : LoggerState :=
      if sched then { s with events := events1, lastScheduled := now / 1000 }
      else { s with events := events1 }
    ⟨s2, sched, decide (s2.events.length = s2.minBatchSize), false⟩

/-- Iterated `log`: one `(event, now)` pair per call. -/
def logMany (s : LoggerState) (ps : List (LogUnifyEvent × Rat)) : LoggerState :=
  ps.foldl (fun st p => (log st p.1 p.2).state) s

/-- Result of the inner retry loop of `sendEvents` (lines 119-125) for one
batch: the value of `attemptsLeft` when the loop exits, the next global
transport-call number, whether an attempt succeeded (the `break` path), and
the batch of every transport call made, in order. -/
structure AttemptOut (α : Type) where
  attemptsLeft : Nat
  callNo : Nat
  success : Bool
  trace : List (List α)
deriving DecidableEq

/-- The inner `while (attemptsLeft > 0)` loop: decrement, call the
transport, `break` on success. The last argument is `attemptsLeft`. -/
def attemptLoop {α : Type} (tr : Nat → Bool) (bulk : List α) :
    Nat → Nat → AttemptOut α
  | callNo, 0 => ⟨0, callNo, false, []⟩
  | callNo, n + 1 =>
    if tr callNo then ⟨n, callNo + 1, true, [bulk]⟩
    else
      let rest := attemptLoop tr bulk (callNo + 1) n
      ⟨rest.attemptsLeft, rest.callNo, rest.success, bulk :: rest.trace⟩

/-- Observable outcome of `sendEvents`: final buffer, final value of the
`isSendingEvents` flag, the returned value (`some false` for `return false`
on line 131, `none` for falling through, i.e. JS `undefined`), the next
transport-call number, and the batch of every transport call, in order. -/
structure SendOut (α : Type) where
  events : List α
  isSendingEvents : Bool
  ret : Option Bool
  callNo : Nat
  trace : List (List α)
deriving DecidableEq

/-- The outer `while (this.events.length > 0)` loop of `sendEvents`
(lines 116-133): take a batch of up to `maxBulkSize`, run the retry loop,
splice off the batch on success, and — the `attemptsLeft === 0` check of
line 127 — reset the flag and `return false` whenever the retry loop ended
with no attempts left, even when the last attempt succeeded. When
`attemptsLeft ≠ 0` the retry loop broke early, so the batch was spliced and
the loop continues on the remaining events. -/
def sendLoop {α : Type} (tr : Nat → Bool) (callNo : Nat) (events : List α) :
    SendOut α :=
  match events with
  | [] => ⟨[], false, none, callNo, []⟩
  | e :: es =>
    let bulk := (e :: es).take maxBulkSize
    let r := attemptLoop tr bulk callNo maxAttempts
    if r.attemptsLeft = 0 then
      ⟨if r.success then (e :: es).drop bulk.length else e :: es,
        false, some false, r.callNo, r.trace⟩
    else
      let rest := sendLoop tr r.callNo ((e :: es).drop bulk.length)
      ⟨rest.events, rest.isSendingEvents, rest.ret, rest.callNo,
        r.trace ++ rest.trace⟩
  termination_by events.length
  decreasing_by
    simp [List.length_drop, List.length_take, maxBulkSize]
    omega

/-- `sendEvents()`, lines 107-136: the guard on line 108 returns immediately
(leaving everything unchanged, issuing no transport call) when a cycle is
already running; otherwise the flag is set for the whole cycle and the batch
loop runs. Every exit path of the loop resets the flag. -/
def sendEvents {α : Type} (tr : Nat → Bool) (callNo : Nat) (events : List α)
    (isSendingEvents : Bool) : SendOut α :=
  if isSendingEvents then ⟨events, isSendingEvents, none, callNo, []⟩
  else sendLoop tr callNo events

/-- One record of the JSON body's `events` array, lines 139-143. -/
structure PostingEvent where
  serializedEvent : String
  schemaName : String
  projectName : String
deriving DecidableEq

/-- The standard base64 alphabet used by Node's `Buffer.toString('base64')`. -/
def b64chars : List Char :=
  "ABCDEFGHIJKLMNOPQRSTUVWXYZabcdefghijklmnopqrstuvwxyz0123456789+/".toList

/-- Character for one 6-bit group. -/
def b64char (n : Nat) : Char := b64chars.getD n 'A'

/-- RFC 4648 base64 with padding over a byte list, as produced by
`Buffer.from(bytes).toString('base64')`. -/
def base64Encode : List Nat → String
  | [] => ""
  | [b1] =>
    String.mk [b64char (b1 / 4 % 64), b64char (b1 % 4 * 16), '=', '=']
  | [b1, b2] =>
    String.mk [b64char (b1 / 4 % 64), b64char (b1 % 4 * 16 + b2 / 16),
      b64char (b2 % 16 * 4), '=']
  | b1 :: b2 :: b3 :: rest =>
    String.mk [b64char (b1 / 4 % 64), b64char (b1 % 4 * 16 + b2 / 16),
      b64char (b2 % 16 * 4 + b3 / 64), b64char (b3 % 64)] ++ base64Encode rest

/-- The HTTP request issued by one `makeRequest` call: URL, the two headers
of lines 150-153, and the `events` array of the JSON body
`JSON.stringify({ events: postingEvents })`. -/
structure Request where
  url : String
  contentType : String
  xAuthToken : Option String
  events : List PostingEvent
deriving DecidableEq

/-- Lines 139-148: map each event of the batch, in order, to its
`PostingEvent` record and assemble the POST request. -/
def buildRequest (receiverURL : String) (apiKey : Option String)
    (events : List LogUnifyEvent) : Request where
  url := receiverURL
  contentType := "application/json"
  xAuthToken := apiKey
  events := events.map fun e =>
    ⟨base64Encode e.serialize, e.getSchemaName, e.getProjectName⟩

/-- `makeRequest(events)`, lines 138-162, against a transport capability
that either completes (`Except.ok`) or raises (`Except.error`: network
error, non-2xx, timeout — axios raises in all three cases): the `catch`
block maps a raise to `false`, any other outcome to `true`. -/
def makeRequest (tr : Request → Except String Unit) (receiverURL : String)
    (apiKey : Option String) (events : List LogUnifyEvent) : Bool :=
  match tr (buildRequest receiverURL apiKey events) with
  | Except.ok _ => true
  | Except.error _ => false

/-- A minimal well-formed event (has `toObject`), used for concrete runs. -/
def e0 : LogUnifyEvent where
  getSchemaName := "s"
  getProjectName := "p"
  serialize := []
  toObject := some ()

/-- An event implementing exactly the declared interface: no `toObject`. -/
def eBad : LogUnifyEvent where
  getSchemaName := "s"
  getProjectName := "p"
  serialize := []
  toObject := none

/-- The n-th of a family of pairwise distinct well-formed events. -/
def evN (n : Nat) : LogUnifyEvent where
  getSchemaName := toString n
  getProjectName := "p"
  serialize := []
  toObject := some ()

/-- Transport oracle that fails the first two calls and succeeds from the
third call on. -/
def tr12fail : Nat → Bool := fun k => decide (2 ≤ k)

/-- A complete option set, as a first `setup` call would pass. -/
def fullOpts : Options where
  apiKey := some "key"
  receiverURL := some "https://collector.example.com/api/events/_bulk"
  batchInterval := some 5000
  minBatchSize := some 7
  enableDebugLog := none

/-- A runtime options object carrying only `batchInterval: 10000`. -/
def onlyBatchInterval : Options where
  apiKey := none
  receiverURL := none
  batchInterval := some 10000
  minBatchSize := none
  enableDebugLog := none

/-- State after a first scheduling happened at millisecond time 0
(`lastScheduled = 0 / 1000 = 0`). -/
def s4 : LoggerState :=
  { initialState with apiKey := some "k", lastScheduled := 0 }

/-- State whose `minBatchSize` is 1, so a single `log` reaches the bound. -/
def s6 : LoggerState :=
  { initialState with apiKey := some "k", minBatchSize := 1 }

/-- With a transport that fails every call, the retry loop with fuel `n`
starting at call number `c` makes exactly `n` transport calls (numbers `c`
to `c + n - 1`) and exits with no attempts left and no success. -/
theorem attemptLoop_allFail_general {α : Type} (tr : Nat → Bool)
    (h : ∀ k, tr k = false) (bulk : List α) :
    ∀ (n c : Nat),
      attemptLoop tr bulk c n = ⟨0, c + n, false, List.replicate n bulk⟩ := by
  intro n
  induction n with
  | zero => intro c; rfl
  | succ n ih =>
    intro c
    simp only [attemptLoop, h, Bool.false_eq_true, if_false, ih (c + 1)]
    rw [List.replicate_succ]
    congr 1
    omega

/-- With a transport that fails every call, the retry loop for a batch makes
exactly `maxAttempts = 3` transport calls and exits with no attempts left
and no success. -/
theorem attemptLoop_allFail {α : Type} (tr : Nat → Bool)
    (h : ∀ k, tr k = false) (bulk : List α) (c : Nat) :
    attemptLoop tr bulk c maxAttempts = ⟨0, c + 3, false, [bulk, bulk, bulk]⟩ :=
  attemptLoop_allFail_general tr h bulk maxAttempts c

/-- Every exit path of the batch loop leaves the `isSendingEvents` flag
false (lines 128 and 135 of the source). -/
theorem sendLoop_flag_false {α : Type} (tr : Nat → Bool) :
    ∀ (n : Nat) (c : Nat) (events : List α), events.length ≤ n →
      (sendLoop tr c events).isSendingEvents = false := by
  intro n
  induction n with
  | zero =>
    intro c events h
    have : events = [] := List.eq_nil_of_length_eq_zero (Nat.le_zero.mp h)
    subst this
    simp [sendLoop]
  | succ n ih =>
    intro c events h
    match events with
    | [] => simp [sendLoop]
    | e :: es =>
      simp only [sendLoop]
      by_cases h0 : (attemptLoop tr ((e :: es).take maxBulkSize) c maxAttempts).attemptsLeft = 0
      · simp [h0]
      · simp only [h0, if_false]
        apply ih
        have hb : 1 ≤ ((e :: es).take maxBulkSize).length := by
          simp [List.length_take, maxBulkSize]
        simp only [List.length_drop, List.length_cons] at *
        omega

/-- Claim C2: for a batch for which the transport fails on every attempt,
the dispatcher makes exactly `maxAttempts = 3` delivery attempts for that
batch (the trace holds three calls, all carrying that batch), then
terminates the flush cycle with the failed batch and everything after it
still present in the buffer unchanged, with the flag cleared, and returns
failure (`return false`) as a value, not an exception. -/
theorem c2_exhausted_attempts {α : Type} (tr : Nat → Bool) (callNo : Nat)
    (events : List α) (hfail : ∀ k, tr k = false) (hne : events ≠ []) :
    sendEvents tr callNo events false =
      ⟨events, false, some false, callNo + 3,
        [events.take maxBulkSize, events.take maxBulkSize,
          events.take maxBulkSize]⟩ := by
  match events with
  | [] => exact absurd rfl hne
  | e :: es =>
    show sendLoop tr callNo (e :: es) = _
    simp only [sendLoop, attemptLoop_allFail tr hfail]
    simp

/-- Witness for C2 at a concrete input: one buffered event, a transport
that always fails; the cycle makes exactly three attempts, returns `false`,
and leaves the event buffered. -/
theorem c2_exhausted_attempts_witness :
    (∀ k, (fun _ => false : Nat → Bool) k = false) ∧ ([5] : List Nat) ≠ [] ∧
    sendEvents (fun _ => false) 0 [5] false =
      ⟨[5], false, some false, 3, [[5], [5], [5]]⟩ := by
  refine ⟨fun k => rfl, by simp, ?_⟩
  have h := c2_exhausted_attempts (α := Nat) (fun _ => false) 0 [5]
    (fun k => rfl) (by simp)
  simpa [maxBulkSize] using h

/-- Claim C7: at most one flush cycle is active at a time. If `sendEvents`
is invoked while the mutual-exclusion flag is true, it returns immediately
as a no-op: the buffer, the flag and the call counter are unchanged and the
trace is empty, so the overlapping trigger issues zero transport calls and
nothing is queued. When a cycle does run (flag initially false), the flag is
set for the whole cycle by construction and every exit path has cleared it
again. -/
theorem c7_mutual_exclusion {α : Type} (tr : Nat → Bool) (callNo : Nat)
    (events : List α) :
    sendEvents tr callNo events true = ⟨events, true, none, callNo, []⟩ ∧
    (sendEvents tr callNo events false).isSendingEvents = false := by
  refine ⟨rfl, ?_⟩
  show (sendLoop tr callNo events).isSendingEvents = false
  exact sendLoop_flag_false tr events.length callNo events (Nat.le_refl _)

/-- Claim C1 (code bug): with 51 buffered events and a transport that fails
calls 0 and 1 and succeeds from call 2 on, the first batch of 50 succeeds on
its third and last attempt and is drained (51 events become 1), yet the
cycle does not proceed to the remaining event: the `attemptsLeft === 0`
check on line 127 conflates success-on-the-last-attempt with exhaustion, so
`sendEvents` stops after 3 calls and returns `false` with one event still
buffered and never attempted. -/
theorem c1_last_attempt_success_aborts_cycle :
    sendEvents tr12fail 0 (List.replicate 51 e0) false =
      ⟨[e0], false, some false, 3,
        [List.replicate 50 e0, List.replicate 50 e0, List.replicate 50 e0]⟩ := by
  show sendLoop tr12fail 0 (List.replicate 51 e0) = _
  rw [show List.replicate 51 e0 = e0 :: List.replicate 50 e0 from rfl]
  simp only [sendLoop]
  decide

/-- One buffer step keeps the length within the bound. -/
theorem bufferStep_length_le {α : Type} (M : Nat) (buf : List α) (e : α)
    (h : buf.length ≤ M) : (bufferStep M buf e).length ≤ M := by
  simp only [bufferStep, List.length_append, List.length_cons, List.length_nil]
  split
  · simp only [List.length_drop, List.length_append, List.length_cons,
      List.length_nil]
    omega
  · simp only [List.length_append, List.length_cons, List.length_nil]
    omega

/-- Folding buffer steps keeps the length within the bound. -/
theorem foldBuffer_length_le {α : Type} (M : Nat) :
    ∀ (es : List α) (buf : List α), buf.length ≤ M →
      (es.foldl (bufferStep M) buf).length ≤ M := by
  intro es
  induction es with
  | nil => intro buf h; simpa
  | cons e es ih =>
    intro buf h
    exact ih _ (bufferStep_length_le M buf e h)

/-- While there is room, a buffer step is a plain append. -/
theorem bufferStep_no_evict {α : Type} (M : Nat) (buf : List α) (e : α)
    (h : buf.length + 1 ≤ M) : bufferStep M buf e = buf ++ [e] := by
  simp only [bufferStep, List.length_append, List.length_cons, List.length_nil]
  rw [if_neg (by omega)]

/-- While there is room for the whole suffix, folding buffer steps is a
plain append. -/
theorem foldBuffer_no_evict {α : Type} (M : Nat) :
    ∀ (es : List α) (buf : List α), buf.length + es.length ≤ M →
      es.foldl (bufferStep M) buf = buf ++ es := by
  intro es
  induction es with
  | nil => intro buf h; simp
  | cons e es ih =>
    intro buf h
    simp only [List.length_cons] at h
    simp only [List.foldl_cons]
    rw [bufferStep_no_evict M buf e (by omega), ih (buf ++ [e]) (by simp; omega)]
    simp

/-- Logging exactly one event more than the bound, starting from an empty
buffer, yields the tail of the input sequence: the oldest event is evicted
and the remaining `M` stay in insertion order. -/
theorem foldBuffer_overflow_one {α : Type} (M : Nat) (es : List α)
    (h : es.length = M + 1) :
    es.foldl (bufferStep M) [] = es.drop 1 := by
  rcases List.eq_nil_or_concat es with rfl | ⟨es2, x, rfl⟩
  · simp only [List.length_nil] at h
    omega
  · rw [List.concat_eq_append] at h ⊢
    have hlen : es2.length = M := by
      simp only [List.length_append, List.length_cons, List.length_nil] at h
      omega
    rw [List.foldl_append]
    simp only [List.foldl_cons, List.foldl_nil]
    rw [foldBuffer_no_evict M es2 [] (by simp [hlen]), List.nil_append]
    simp only [bufferStep, List.length_append, List.length_cons, List.length_nil]
    rw [if_pos (by omega)]

/-- The buffer effect of one `log` call is exactly `bufferStep`, whether or
not the call later throws or schedules. -/
theorem log_state_events (s : LoggerState) (e : LogUnifyEvent) (now : Rat) :
    (log s e now).state.events = bufferStep maxUnsentEvents s.events e := by
  cases h : e.toObject with
  | none => simp only [log, h]
  | some u =>
    simp only [log, h]
    split <;> rfl

/-- The buffer after a sequence of `log` calls is the fold of `bufferStep`
over the logged events. -/
theorem logMany_events (s : LoggerState) (ps : List (LogUnifyEvent × Rat)) :
    (logMany s ps).events =
      (ps.map Prod.fst).foldl (bufferStep maxUnsentEvents) s.events := by
  induction ps generalizing s with
  | nil => rfl
  | cons p ps ih =>
    show (logMany (log s p.1 p.2).state ps).events = _
    rw [ih, List.map_cons, List.foldl_cons, log_state_events]

/-- Claim C3: over any sequence of `log` calls the buffer length never
exceeds `maxUnsentEvents = 5000`; an append that would exceed the bound
removes exactly one element from the head (drop-oldest); logging
`maxUnsentEvents + 1` events into an empty buffer with no flush leaves
exactly the input sequence minus its first element, in insertion order; and
the overflow path raises no error to the caller (`errored` is only ever set
by the unrelated `toObject` call). -/
theorem c3_buffer_bound (s : LoggerState) (ps : List (LogUnifyEvent × Rat))
    (hlen : s.events.length ≤ maxUnsentEvents) :
    (logMany s ps).events.length ≤ maxUnsentEvents ∧
    (s.events = [] → ps.length = maxUnsentEvents + 1 →
      (logMany s ps).events = (ps.map Prod.fst).drop 1) ∧
    (∀ e now, s.events.length = maxUnsentEvents →
      (log s e now).state.events = s.events.drop 1 ++ [e]) ∧
    (∀ e now, (e.toObject).isSome → (log s e now).errored = false) := by
  refine ⟨?_, ?_, ?_, ?_⟩
  · rw [logMany_events]
    exact foldBuffer_length_le maxUnsentEvents (ps.map Prod.fst) s.events hlen
  · intro h0 h1
    rw [logMany_events, h0]
    exact foldBuffer_overflow_one maxUnsentEvents (ps.map Prod.fst)
      (by simpa using h1)
  · intro e now hfull
    rw [log_state_events]
    simp only [bufferStep, List.length_append, List.length_cons, List.length_nil]
    rw [if_pos (by omega), List.drop_append_of_le_length (by rw [hfull]; decide)]
  · intro e now h
    obtain ⟨u, hu⟩ := Option.isSome_iff_exists.mp h
    simp only [log, hu]

/-- Witness for C3: logging 5001 pairwise distinct events into the freshly
constructed state leaves exactly events 1..5000, in order. -/
theorem c3_buffer_bound_witness :
    initialState.events.length ≤ maxUnsentEvents ∧
    initialState.events = [] ∧
    ((List.range (maxUnsentEvents + 1)).map fun n => (evN n, (0 : Rat))).length
      = maxUnsentEvents + 1 ∧
    (logMany initialState
        ((List.range (maxUnsentEvents + 1)).map fun n => (evN n, (0 : Rat)))).events
      = (((List.range (maxUnsentEvents + 1)).map fun n => (evN n, (0 : Rat))).map
          Prod.fst).drop 1 := by
  refine ⟨by simp [initialState], rfl, by simp, ?_⟩
  exact (c3_buffer_bound initialState _ (by simp [initialState])).2.1 rfl (by simp)

/-- Claim C6: the immediate (size-triggered) flush path of `log` is taken
iff the buffer length after the append (and possible eviction) is exactly
`minBatchSize` — an equality check; in particular, whenever the buffer was
already at or above `minBatchSize` before the call (and `minBatchSize` is
below the eviction bound), the buffer size skips over `minBatchSize` and the
immediate path is never taken. -/
theorem c6_exact_size_trigger (s : LoggerState) (e : LogUnifyEvent) (now : Rat)
    (h : (e.toObject).isSome) :
    ((log s e now).immediateFlush = true ↔
      (bufferStep maxUnsentEvents s.events e).length = s.minBatchSize) ∧
    (s.minBatchSize ≤ s.events.length → s.minBatchSize < maxUnsentEvents →
      (log s e now).immediateFlush = false) := by
  obtain ⟨u, hu⟩ := Option.isSome_iff_exists.mp h
  have hflush : (log s e now).immediateFlush =
      decide ((bufferStep maxUnsentEvents s.events e).length = s.minBatchSize) := by
    simp only [log, hu]
    split <;> rfl
  constructor
  · rw [hflush]
    simp
  · intro h1 h2
    have hne : (bufferStep maxUnsentEvents s.events e).length ≠ s.minBatchSize := by
      simp only [bufferStep, List.length_append, List.length_cons, List.length_nil]
      split
      · simp only [List.length_drop, List.length_append, List.length_cons,
          List.length_nil]
        omega
      · simp only [List.length_append, List.length_cons, List.length_nil]
        omega
    rw [hflush]
    simpa using hne

/-- Witness for C6: with `minBatchSize = 1`, the very first `log` lands
exactly on the bound and takes the immediate path. -/
theorem c6_exact_size_trigger_witness :
    (e0.toObject).isSome = true ∧
    (((log s6 e0 0).immediateFlush = true ↔
      (bufferStep maxUnsentEvents s6.events e0).length = s6.minBatchSize) ∧
     (s6.minBatchSize ≤ s6.events.length → s6.minBatchSize < maxUnsentEvents →
      (log s6 e0 0).immediateFlush = false)) :=
  ⟨rfl, c6_exact_size_trigger s6 e0 0 rfl⟩

/-- Claim C10: `log` evaluates `event.toObject()` although the method is
not part of the declared `LogUnifyEvent` interface; for an event value
implementing only the declared interface the call throws a `TypeError`
after the event was appended to the buffer (lines 86-90 precede line 91)
and before any flush scheduling or trigger: `lastScheduled` is unchanged,
no timer is armed and no immediate flush is invoked. -/
theorem c10_missing_toObject (s : LoggerState) (e : LogUnifyEvent) (now : Rat)
    (h : e.toObject = none) :
    (log s e now).errored = true ∧
    (log s e now).state.events = bufferStep maxUnsentEvents s.events e ∧
    (log s e now).state.lastScheduled = s.lastScheduled ∧
    (log s e now).timerArmed = false ∧
    (log s e now).immediateFlush = false := by
  simp [log, h]

/-- Witness for C10 at a concrete input: `eBad` carries exactly the three
declared methods and no `toObject`; logging it errors with the event
appended and nothing scheduled. -/
theorem c10_missing_toObject_witness :
    eBad.toObject = none ∧
    ((log initialState eBad 0).errored = true ∧
     (log initialState eBad 0).state.events =
       bufferStep maxUnsentEvents initialState.events eBad ∧
     (log initialState eBad 0).state.lastScheduled = initialState.lastScheduled ∧
     (log initialState eBad 0).timerArmed = false ∧
     (log initialState eBad 0).immediateFlush = false) :=
  ⟨rfl, c10_missing_toObject initialState eBad 0 rfl⟩

/-- Claim C4 (code bug): line 93 compares the elapsed time in seconds
(`Date.now() / 1000 - lastScheduled`) against `batchInterval`, which is a
millisecond quantity (`setTimeout(…, batchInterval)`, and the debug message
prints `batchInterval / 1000` seconds). With the default
`batchInterval = 5000` and a previous scheduling at millisecond time 0, a
`log` at millisecond time 10000 — elapsed 10000 ms, which exceeds
`batchInterval` as the claim reads it — arms no timer; the guard only
re-arms once the elapsed time exceeds `batchInterval × 1000` ms (here at
now = 5001000 ms ≈ 83 minutes), a factor-1000 unit mismatch. -/
theorem c4_debounce_unit_mismatch :
    s4.batchInterval = 5000 ∧
    (10000 : Rat) - 0 > s4.batchInterval ∧
    (log s4 e0 10000).timerArmed = false ∧
    (log s4 e0 5001000).timerArmed = true := by
  refine ⟨rfl, by norm_num [s4, initialState], ?_, ?_⟩
  · simp only [log, e0, s4, initialState]
    rw [decide_eq_false_iff_not]
    push_neg
    constructor
    · norm_num
    · norm_num
  · simp only [log, e0, s4, initialState, decide_eq_true_eq]
    right
    norm_num

/-- Claim C5 counterexample: after a first `setup` with a full option set
(`apiKey = "key"`), a second `setup` whose options object carries only
`batchInterval: 10000` does not preserve `apiKey`: line 78 of `configure`
assigns `options.apiKey` unconditionally, so the stored key becomes
`undefined`. -/
theorem c5_apiKey_clobbered :
    (setupFn none fullOpts).1.apiKey = some "key" ∧
    (setupFn (setupFn none fullOpts).2 onlyBatchInterval).1.apiKey = none := by
  decide

/-- Claim C5 amended: a second `setup` whose options carry only a non-zero
`batchInterval` changes `batchInterval` to that value and leaves
`receiverURL`, `minBatchSize` and the non-configuration state (the event
buffer) at their previous values, but resets `apiKey` to the new options'
(absent) `apiKey`: only `batchInterval`, `minBatchSize` and `receiverURL`
follow present-and-truthy override semantics, `apiKey` is always
overwritten. -/
theorem c5_partial_reconfigure (s : LoggerState) (o : Options) (b : Rat)
    (hb : o.batchInterval = some b) (hbne : b ≠ 0) (ha : o.apiKey = none)
    (hr : o.receiverURL = none) (hm : o.minBatchSize = none) :
    (setupFn (some s) o).1.batchInterval = b ∧
    (setupFn (some s) o).1.apiKey = none ∧
    (setupFn (some s) o).1.receiverURL = s.receiverURL ∧
    (setupFn (some s) o).1.minBatchSize = s.minBatchSize ∧
    (setupFn (some s) o).1.events = s.events ∧
    (setupFn (some s) o).2 = some (setupFn (some s) o).1 := by
  simp [setupFn, configure, orTruthyRat, orTruthyNat, orTruthyStr,
    hb, hbne, ha, hr, hm]

/-- Witness for the amended C5 at the concrete input of the claim: second
call with only `batchInterval: 10000` on a logger set up with `fullOpts`. -/
theorem c5_partial_reconfigure_witness :
    onlyBatchInterval.batchInterval = some 10000 ∧ (10000 : Rat) ≠ 0 ∧
    onlyBatchInterval.apiKey = none ∧ onlyBatchInterval.receiverURL = none ∧
    onlyBatchInterval.minBatchSize = none ∧
    ((setupFn (some (newLogger fullOpts)) onlyBatchInterval).1.batchInterval
        = 10000 ∧
      (setupFn (some (newLogger fullOpts)) onlyBatchInterval).1.apiKey = none ∧
      (setupFn (some (newLogger fullOpts)) onlyBatchInterval).1.receiverURL
        = (newLogger fullOpts).receiverURL ∧
      (setupFn (some (newLogger fullOpts)) onlyBatchInterval).1.minBatchSize
        = (newLogger fullOpts).minBatchSize ∧
      (setupFn (some (newLogger fullOpts)) onlyBatchInterval).1.events
        = (newLogger fullOpts).events ∧
      (setupFn (some (newLogger fullOpts)) onlyBatchInterval).2
        = some (setupFn (some (newLogger fullOpts)) onlyBatchInterval).1) :=
  ⟨rfl, by norm_num, rfl, rfl, rfl,
    c5_partial_reconfigure (newLogger fullOpts) onlyBatchInterval 10000
      rfl (by norm_num) rfl rfl rfl⟩

/-- Claim C8: every delivery attempt issues one POST to `receiverURL` with
headers `Content-Type: application/json` and `X-Auth-Token: <apiKey>`, whose
body's `events` array maps each event of the batch, in order, to a record
with `serializedEvent` (base64 of its serialized bytes), `schemaName` and
`projectName`; the attempt counts as failure exactly when the transport
raises and as success otherwise. The last conjunct checks the base64
encoder on the classic RFC 4648 vector. -/
theorem c8_request_shape (url : String) (key : Option String)
    (events : List LogUnifyEvent) (tr : Request → Except String Unit) :
    (buildRequest url key events).url = url ∧
    (buildRequest url key events).contentType = "application/json" ∧
    (buildRequest url key events).xAuthToken = key ∧
    (buildRequest url key events).events = events.map (fun e =>
      ⟨base64Encode e.serialize, e.getSchemaName, e.getProjectName⟩) ∧
    (makeRequest tr url key events = true ↔
      tr (buildRequest url key events) = Except.ok ()) ∧
    base64Encode [77, 97, 110] = "TWFu" := by
  refine ⟨rfl, rfl, rfl, rfl, ?_, by decide⟩
  cases htr : tr (buildRequest url key events) with
  | ok u => cases u; simp [makeRequest, htr]
  | error msg => simp [makeRequest, htr]

/-- Every call sequence that has executed at least one `setup` leaves the
singleton slot occupied. -/
theorem runCalls_some (calls : List ApiCall) :
    ∀ (s : LoggerState), ∃ t, runCalls (some s) calls = some t := by
  induction calls with
  | nil => intro s; exact ⟨s, rfl⟩
  | cons c rest ih =>
    intro s
    cases c with
    | setupCall o => exact ih (configure s o)
    | getCall => exact ih s

/-- Claim C9: `get()` returns the existing instance when one exists and
throws the "uninitialized" error exactly when `setup` was never called
(over every call sequence on the public surface, the slot is empty iff the
sequence contains no `setup`); `setup` creates the instance when absent and
otherwise reconfigures the same instance — preserving its event buffer,
flush flag and schedule — returning the instance in both cases. -/
theorem c9_singleton_lifecycle :
    (∀ s, getFn (some s) = Except.ok s) ∧
    getFn none = Except.error
      "Logger is not initialized, please call setupLogger() to initialize the logger." ∧
    (∀ o, setupFn none o = (newLogger o, some (newLogger o))) ∧
    (∀ s o, setupFn (some s) o = (configure s o, some (configure s o)) ∧
      (configure s o).events = s.events ∧
      (configure s o).isSendingEvents = s.isSendingEvents ∧
      (configure s o).lastScheduled = s.lastScheduled) ∧
    (∀ calls, runCalls none calls = none ↔
      ∀ c ∈ calls, c = ApiCall.getCall) := by
  refine ⟨fun s => rfl, rfl, fun o => rfl,
    fun s o => ⟨rfl, rfl, rfl, rfl⟩, ?_⟩
  intro calls
  induction calls with
  | nil => simp [runCalls]
  | cons c rest ih =>
    cases c with
    | getCall =>
      show runCalls none rest = none ↔ _
      rw [ih]
      simp
    | setupCall o =>
      constructor
      · intro hnone
        obtain ⟨t, ht⟩ := runCalls_some rest (newLogger o)
        have hcontra : (some t : Option LoggerState) = none := by
          rw [← ht]
          exact hnone
        simp at hcontra
      · intro hall
        exact absurd (hall (ApiCall.setupCall o) (List.mem_cons_self _ _))
          (fun hco => ApiCall.noConfusion hco)

/-- Witness for C9 at a concrete input: a slot holding the fresh instance is
returned by `get` as-is. -/
theorem c9_singleton_lifecycle_witness :
    getFn (some initialState) = Except.ok initialState :=
  c9_singleton_lifecycle.1 initialState

end LogUnify
